import Mathlib

/-!
Shallow embedding of the PythonSQLAlchemyDemo repository: a Flask HTTP
service over a single SQLAlchemy-mapped `users` table (src/main.py defines
the model and a scoped-session helper; src/flask_mysql.py defines the four
HTTP handlers).  The database table is modelled as a list of rows together
with the MySQL AUTO_INCREMENT counter; the unique constraint on `email`
declared in the model (`unique=True`) is enforced at commit time, as MySQL
does, by making the commit fail (a storage error surfaced by Flask as a
500 response) whenever it would put two rows with the same email in the
table.
-/

namespace PySqlDemo

/-- JSON values, as produced by flask.jsonify for the handler responses. -/
inductive Json where
  | num (n : Int)
  | str (s : String)
  | arr (elems : List Json)
  | obj (fields : List (String × Json))

/-- A row of the `users` table: src/main.py lines 31-39.
`id` is the AUTO_INCREMENT primary key, `name` and `email` the two
string columns; `email` carries a unique constraint. -/
structure User where
  id : Nat
  name : String
  email : String
deriving DecidableEq, Repr

/-- Modelled from the spec: the handlers in src/flask_mysql.py call
`User.to_dict`, whose definition is not among the source files; the spec
describes it as a serialization function producing a plain key-value
representation of a User for transport, with JSON shape
id: int, name: string, email: string. -/
def User.to_dict (u : User) : Json :=
  Json.obj [((r"id"), Json.num u.id), ((r"name"), Json.str u.name),
            ((r"email"), Json.str u.email)]

/-- The persistent database state: the rows of the `users` table in
insertion order, plus the AUTO_INCREMENT counter that MySQL will assign
to the next inserted row. -/
structure DB where
  rows : List User
  nextId : Nat
deriving DecidableEq, Repr

/-- The freshly created table: no rows, AUTO_INCREMENT starts at 1. -/
def DB.empty : DB := ⟨[], 1⟩

/-- Whether some row of the table already has the given email; this is
what the unique constraint on `users.email` checks at commit time. -/
def DB.emailExists (db : DB) (e : String) : Bool :=
  db.rows.any fun u => u.email == e

/-- The request body as the handlers read it: `data.get("name")` and
`data.get("email")` each yield the string under the key or None. -/
structure ReqBody where
  name : Option String
  email : Option String
deriving DecidableEq, Repr

/-- Python truthiness test `not x` for an optional string: true on None
and on the empty string. -/
def isBlank : Option String → Bool
  | none => true
  | some s => s.isEmpty

/-- An HTTP response: status code plus optional JSON body (`none` models
an empty body, as in the 204 reply and in Flask's generic 500 page). -/
structure Response where
  status : Nat
  body : Option Json

/-- The observable outcome of one handler invocation: the HTTP response,
the database state after the request, and whether the handler ever called
`get_session()` (src/flask_mysql.py line 19). -/
structure Outcome where
  resp : Response
  db : DB
  sessionOpened : Bool

/-- GET /users (src/flask_mysql.py lines 24-29): select all User rows and
return them serialized as a JSON array. -/
def list_users (db : DB) : Outcome :=
  ⟨⟨200, some (Json.arr (db.rows.map User.to_dict))⟩, db, true⟩

/-- POST /users (src/flask_mysql.py lines 33-44): reject a missing/empty
name or email with 400 before opening a session; otherwise insert the row
and commit.  A duplicate email makes the INSERT violate the unique
constraint: the commit raises, the session context closes with a
rollback, and Flask answers 500. -/
def create_user_api (db : DB) (body : ReqBody) : Outcome :=
  if isBlank body.name || isBlank body.email then
    ⟨⟨400, some (Json.obj [((r"error"), Json.str (r"name and email required"))])⟩,
     db, false⟩
  else
    let n := body.name.getD (r"")
    let e := body.email.getD (r"")
    if db.emailExists e then
      ⟨⟨500, none⟩, db, true⟩
    else
      let u : User := ⟨db.nextId, n, e⟩
      ⟨⟨201, some u.to_dict⟩, ⟨db.rows ++ [u], db.nextId + 1⟩, true⟩

/-- PATCH /users/{id} (src/flask_mysql.py lines 48-61): reject a
missing/empty email with 400 before opening a session; 404 when no row
has the target id; otherwise set that row's email and commit.  When the
new email duplicates a different row's email the UPDATE violates the
unique constraint: the commit raises and Flask answers 500 with the
database rolled back. -/
def update_user_api (db : DB) (userId : Nat) (body : ReqBody) : Outcome :=
  if isBlank body.email then
    ⟨⟨400, some (Json.obj [((r"error"), Json.str (r"email required"))])⟩, db, false⟩
  else
    let e := body.email.getD (r"")
    match db.rows.find? (fun v => v.id == userId) with
    | none => ⟨⟨404, some (Json.obj [((r"error"), Json.str (r"not found"))])⟩, db, true⟩
    | some u =>
      if db.emailExists e && e != u.email then
        ⟨⟨500, none⟩, db, true⟩
      else
        ⟨⟨200, some (User.to_dict { u with email := e })⟩,
         ⟨db.rows.map (fun v => if v.id == userId then { v with email := e } else v),
          db.nextId⟩, true⟩

/-- DELETE /users/{id} (src/flask_mysql.py lines 65-73): 404 when no row
has the target id; otherwise delete the row, commit and answer 204 with
an empty body. -/
def delete_user_api (db : DB) (userId : Nat) : Outcome :=
  match db.rows.find? (fun v => v.id == userId) with
  | none => ⟨⟨404, some (Json.obj [((r"error"), Json.str (r"not found"))])⟩, db, true⟩
  | some _ =>
    ⟨⟨204, none⟩, ⟨db.rows.filter (fun v => v.id != userId), db.nextId⟩, true⟩

/-- The scoped-session context manager of src/main.py lines 46-56: run the
body inside a session over the current persisted state; on normal
completion commit (the body's state becomes the persisted state), on an
exception roll back (the persisted state is unchanged) and re-raise. -/
def session_scope {α : Type} (body : DB → Except String (DB × α)) (db : DB) :
    DB × Except String α :=
  match body db with
  | Except.error e => (db, Except.error e)
  | Except.ok (db2, a) => (db2, Except.ok a)

/-- One HTTP operation of the service together with its request data. -/
inductive Op where
  | list
  | create (body : ReqBody)
  | update (userId : Nat) (body : ReqBody)
  | delete (userId : Nat)

/-- The database state after serving one request against `db`. -/
def applyOp (db : DB) : Op → DB
  | Op.list => (list_users db).db
  | Op.create body => (create_user_api db body).db
  | Op.update i body => (update_user_api db i body).db
  | Op.delete i => (delete_user_api db i).db

/-- Database states reachable from the freshly created table by serving
any sequence of HTTP requests. -/
inductive Reachable : DB → Prop where
  | empty : Reachable DB.empty
  | step {db : DB} (op : Op) : Reachable db → Reachable (applyOp db op)

/-- No two distinct rows of the table share an email: the invariant the
unique constraint on `users.email` maintains. -/
def EmailsUnique (db : DB) : Prop :=
  db.rows.Pairwise fun a b => a.email ≠ b.email

/-- No two distinct rows share an id (primary-key property). -/
def IdsUnique (db : DB) : Prop :=
  db.rows.Pairwise fun a b => a.id ≠ b.id

/-- Well-formedness of a database state: the AUTO_INCREMENT counter is
positive, every row id is positive and below the counter, and ids and
emails are unique across rows. -/
def DB.WF (db : DB) : Prop :=
  1 ≤ db.nextId ∧ (∀ u ∈ db.rows, 1 ≤ u.id ∧ u.id < db.nextId) ∧
    IdsUnique db ∧ EmailsUnique db

instance (db : DB) : Decidable (EmailsUnique db) :=
  inferInstanceAs (Decidable (db.rows.Pairwise fun (a b : User) => a.email ≠ b.email))

instance (db : DB) : Decidable (IdsUnique db) :=
  inferInstanceAs (Decidable (db.rows.Pairwise fun (a b : User) => a.id ≠ b.id))

instance (db : DB) : Decidable db.WF :=
  inferInstanceAs (Decidable (_ ∧ _ ∧ _ ∧ _))

/-- Result of process startup: either the process exited with a message,
or it constructed the engine for the given connection string. -/
inductive Startup where
  | exited (msg : String)
  | engine (url : String)
deriving DecidableEq, Repr

/-- src/main.py lines 19-22: read DATABASE_URL from the environment and
normalize a bare mysql:// scheme to the pymysql driver (the guarded
`replace` with count 1 rewrites exactly the 8-character prefix). -/
def normalizeDatabaseUrl : Option String → Option String
  | none => none
  | some u =>
    if (r"mysql://").data.isPrefixOf u.data then
      some ((r"mysql+pymysql://") ++ String.mk (u.data.drop 8))
    else some u

/-- Whether the pattern occurs as a contiguous run somewhere in the
character list. -/
def containsRun (pat : List Char) : List Char → Bool
  | [] => pat.isEmpty
  | c :: rest => pat.isPrefixOf (c :: rest) || containsRun pat rest

/-- Modelled from the spec: `create_engine` belongs to the external ORM
library, whose internals are out of scope; the spec says the process
exits when the connection string is malformed.  Malformedness is modelled
minimally as the absence of a scheme separator in the string. -/
def validEngineUrl (url : String) : Bool :=
  containsRun (r"://").data url.data

/-- Process startup (src/main.py lines 19-24 and 43, which also run first
when src/flask_mysql.py imports the model): normalize the environment
value, exit when it is absent or empty, construct the engine when the
connection string parses, and exit when it does not. -/
def startup (env : Option String) : Startup :=
  match normalizeDatabaseUrl env with
  | none => Startup.exited (r"DATABASE_URL is required")
  | some url =>
    if url.isEmpty then Startup.exited (r"DATABASE_URL is required")
    else if validEngineUrl url then Startup.engine url
    else Startup.exited (r"could not parse DATABASE_URL")

/-! ### Helper lemmas -/

theorem isBlank_some_eq_false {email : String} (he0 : email ≠ (r"")) :
    isBlank (some email) = false := by
  cases h : email.isEmpty with
  | false => exact h
  | true => exact absurd ((String.isEmpty_iff email).mp h) he0

theorem emailExists_eq_false_iff (db : DB) (e : String) :
    db.emailExists e = false ↔ ∀ u ∈ db.rows, u.email ≠ e := by
  simp [DB.emailExists]

theorem eq_of_mem_of_id_eq {db : DB} (h : IdsUnique db) {a b : User}
    (ha : a ∈ db.rows) (hb : b ∈ db.rows) (hid : a.id = b.id) : a = b := by
  by_contra hne
  unfold IdsUnique at h
  exact List.Pairwise.forall (fun _ _ hxy => hxy.symm) h ha hb hne hid

theorem ids_pairwise_map_update {rows : List User} {userId : Nat} {e : String}
    (h : rows.Pairwise fun a b => a.id ≠ b.id) :
    (rows.map fun v => if v.id == userId then { v with email := e } else v).Pairwise
      fun a b => a.id ≠ b.id := by
  rw [List.pairwise_map]
  refine h.imp ?_
  intro a b hab
  by_cases h1 : (a.id == userId) = true <;> by_cases h2 : (b.id == userId) = true <;>
    simpa [h1, h2] using hab

theorem emails_pairwise_map_update {rows : List User} {userId : Nat} {e : String}
    (hids : rows.Pairwise fun a b => a.id ≠ b.id)
    (hemails : rows.Pairwise fun a b => a.email ≠ b.email)
    (hok : (∀ v ∈ rows, v.email ≠ e) ∨ (∀ v ∈ rows, v.id = userId → v.email = e)) :
    (rows.map fun v => if v.id == userId then { v with email := e } else v).Pairwise
      fun a b => a.email ≠ b.email := by
  rw [List.pairwise_map]
  refine (hids.and hemails).imp_of_mem ?_
  intro a b ha hb hab
  obtain ⟨hid, hem⟩ := hab
  by_cases h1 : (a.id == userId) = true <;> by_cases h2 : (b.id == userId) = true
  · exact absurd ((beq_iff_eq.mp h1).trans (beq_iff_eq.mp h2).symm) hid
  · simp only [h1, if_true, h2, if_false]
    rcases hok with hall | hall
    · exact (hall b hb).symm
    · rw [← hall a ha (beq_iff_eq.mp h1)]
      exact hem
  · simp only [h1, if_false, h2, if_true]
    rcases hok with hall | hall
    · exact hall a ha
    · rw [← hall b hb (beq_iff_eq.mp h2)]
      exact hem
  · simpa [h1, h2] using hem

theorem WF_create (db : DB) (body : ReqBody) (h : db.WF) :
    (create_user_api db body).db.WF := by
  obtain ⟨h1, h2, h3, h4⟩ := h
  cases hb : isBlank body.name || isBlank body.email with
  | true => simpa [create_user_api, hb] using ⟨h1, h2, h3, h4⟩
  | false =>
    cases hdup : db.emailExists (body.email.getD (r"")) with
    | true => simpa [create_user_api, hb, hdup] using ⟨h1, h2, h3, h4⟩
    | false =>
      have hne : ∀ u ∈ db.rows, u.email ≠ body.email.getD (r"") :=
        (emailExists_eq_false_iff db _).mp hdup
      simp only [create_user_api, hb, hdup, Bool.false_eq_true, if_false]
      refine ⟨Nat.le_succ_of_le h1, ?_, ?_, ?_⟩
      · intro v hv
        rcases List.mem_append.mp hv with hv | hv
        · obtain ⟨ha, hlt⟩ := h2 v hv
          exact ⟨ha, Nat.lt_succ_of_lt hlt⟩
        · rcases List.mem_singleton.mp hv with rfl
          exact ⟨h1, Nat.lt_succ_self _⟩
      · unfold IdsUnique at h3 ⊢
        refine List.pairwise_append.mpr ⟨h3, List.pairwise_singleton _ _, ?_⟩
        intro a ha b hb2
        rcases List.mem_singleton.mp hb2 with rfl
        exact Nat.ne_of_lt (h2 a ha).2
      · unfold EmailsUnique at h4 ⊢
        refine List.pairwise_append.mpr ⟨h4, List.pairwise_singleton _ _, ?_⟩
        intro a ha b hb2
        rcases List.mem_singleton.mp hb2 with rfl
        exact hne a ha

theorem WF_update (db : DB) (userId : Nat) (body : ReqBody) (h : db.WF) :
    (update_user_api db userId body).db.WF := by
  obtain ⟨h1, h2, h3, h4⟩ := h
  cases hb : isBlank body.email with
  | true => simpa [update_user_api, hb] using ⟨h1, h2, h3, h4⟩
  | false =>
    cases hf : db.rows.find? (fun v => v.id == userId) with
    | none => simpa [update_user_api, hb, hf] using ⟨h1, h2, h3, h4⟩
    | some u =>
      cases hg : db.emailExists (body.email.getD (r"")) &&
          (body.email.getD (r"")) != u.email with
      | true => simpa [update_user_api, hb, hf, hg] using ⟨h1, h2, h3, h4⟩
      | false =>
        have humem : u ∈ db.rows := List.mem_of_find?_eq_some hf
        have huid : u.id = userId := by simpa using List.find?_some hf
        have hok : (∀ v ∈ db.rows, v.email ≠ body.email.getD (r"")) ∨
            (∀ v ∈ db.rows, v.id = userId → v.email = body.email.getD (r"")) := by
          cases hex : db.emailExists (body.email.getD (r"")) with
          | false => exact Or.inl ((emailExists_eq_false_iff db _).mp hex)
          | true =>
            rw [hex] at hg
            have heq : body.email.getD (r"") = u.email := by simpa using hg
            refine Or.inr ?_
            intro v hv hvid
            have hvu : v = u := eq_of_mem_of_id_eq h3 hv humem (hvid.trans huid.symm)
            rw [hvu]
            exact heq.symm
        simp only [update_user_api, hb, hf, hg, Bool.false_eq_true, if_false]
        refine ⟨h1, ?_, ?_, ?_⟩
        · intro v hv
          rcases List.mem_map.mp hv with ⟨w, hw, rfl⟩
          have hid : (if (w.id == userId) = true
              then { w with email := body.email.getD (r"") } else w).id = w.id := by
            by_cases hc : (w.id == userId) = true <;> simp [hc]
          rw [hid]
          exact h2 w hw
        · exact ids_pairwise_map_update h3
        · exact emails_pairwise_map_update h3 h4 hok

theorem WF_delete (db : DB) (userId : Nat) (h : db.WF) :
    (delete_user_api db userId).db.WF := by
  obtain ⟨h1, h2, h3, h4⟩ := h
  cases hf : db.rows.find? (fun v => v.id == userId) with
  | none => simpa [delete_user_api, hf] using ⟨h1, h2, h3, h4⟩
  | some u =>
    simp only [delete_user_api, hf]
    refine ⟨h1, ?_, ?_, ?_⟩
    · intro v hv
      exact h2 v (List.mem_filter.mp hv).1
    · unfold IdsUnique at h3 ⊢
      exact h3.sublist (List.filter_sublist _)
    · unfold EmailsUnique at h4 ⊢
      exact h4.sublist (List.filter_sublist _)

theorem WF_applyOp (db : DB) (op : Op) (h : db.WF) : (applyOp db op).WF := by
  cases op with
  | list => exact h
  | create body => exact WF_create db body h
  | update i body => exact WF_update db i body h
  | delete i => exact WF_delete db i h

theorem reachable_WF {db : DB} (h : Reachable db) : db.WF := by
  induction h with
  | empty => decide
  | step op _ ih => exact WF_applyOp _ op ih

/-! ### Claim theorems -/

/-- C1: for every database state, GET /users answers 200 with the JSON array
holding exactly one serialized id/name/email record per User row, in table
order, and leaves the database unchanged; in the model the handler cannot
fail (storage-layer errors belong to the external engine). -/
theorem list_users_returns_all (db : DB) :
    list_users db = ⟨⟨200, some (Json.arr (db.rows.map User.to_dict))⟩, db, true⟩ ∧
    (db.rows.map User.to_dict).length = db.rows.length :=
  ⟨rfl, List.length_map db.rows User.to_dict⟩

/-- C2: POST /users with a non-empty name and a non-empty non-duplicate email
inserts exactly one row carrying the system-assigned positive id, answers 201
with the serialized created record, and the row appears in a subsequent
GET /users. -/
theorem create_user_valid (db : DB) (body : ReqBody) (name email : String)
    (hwf : db.WF) (hn : body.name = some name) (he : body.email = some email)
    (hn0 : name ≠ (r"")) (he0 : email ≠ (r""))
    (hdup : db.emailExists email = false) :
    create_user_api db body =
      ⟨⟨201, some (User.to_dict ⟨db.nextId, name, email⟩)⟩,
       ⟨db.rows ++ [⟨db.nextId, name, email⟩], db.nextId + 1⟩, true⟩ ∧
    0 < db.nextId ∧
    (⟨db.nextId, name, email⟩ : User) ∈ (create_user_api db body).db.rows ∧
    (list_users (create_user_api db body).db).resp.body =
      some (Json.arr ((create_user_api db body).db.rows.map User.to_dict)) := by
  have hbn : isBlank body.name = false := by rw [hn]; exact isBlank_some_eq_false hn0
  have hbe : isBlank body.email = false := by rw [he]; exact isBlank_some_eq_false he0
  have heq : create_user_api db body =
      ⟨⟨201, some (User.to_dict ⟨db.nextId, name, email⟩)⟩,
       ⟨db.rows ++ [⟨db.nextId, name, email⟩], db.nextId + 1⟩, true⟩ := by
    simp [create_user_api, hn, he, isBlank_some_eq_false hn0, isBlank_some_eq_false he0,
      hdup]
  refine ⟨heq, hwf.1, ?_, rfl⟩
  rw [heq]
  exact List.mem_append_right _ (List.mem_singleton_self _)

/-- C2 witness: creating Alice in the empty database answers 201 with id 1
and the row shows up in the list. -/
theorem create_user_valid_witness :
    create_user_api DB.empty ⟨some (r"Alice"), some (r"a@x.com")⟩ =
      ⟨⟨201, some (User.to_dict ⟨1, (r"Alice"), (r"a@x.com")⟩)⟩,
       ⟨[⟨1, (r"Alice"), (r"a@x.com")⟩], 2⟩, true⟩ ∧
    0 < (1 : Nat) ∧
    (⟨1, (r"Alice"), (r"a@x.com")⟩ : User) ∈
      (create_user_api DB.empty ⟨some (r"Alice"), some (r"a@x.com")⟩).db.rows ∧
    (list_users (create_user_api DB.empty
        ⟨some (r"Alice"), some (r"a@x.com")⟩).db).resp.body =
      some (Json.arr ((create_user_api DB.empty
        ⟨some (r"Alice"), some (r"a@x.com")⟩).db.rows.map User.to_dict)) :=
  create_user_valid DB.empty ⟨some (r"Alice"), some (r"a@x.com")⟩ (r"Alice") (r"a@x.com")
    (by decide) rfl rfl (by decide) (by decide) rfl

/-- C3: POST /users with a missing or empty name or email answers 400 with the
error body, opens no session, and leaves the users table exactly as it was. -/
theorem create_user_missing_fields (db : DB) (body : ReqBody)
    (h : isBlank body.name = true ∨ isBlank body.email = true) :
    create_user_api db body =
      ⟨⟨400, some (Json.obj [((r"error"), Json.str (r"name and email required"))])⟩,
       db, false⟩ := by
  rcases h with h | h <;> simp [create_user_api, h]

/-- C3 witness: a body without a name is rejected with 400 on the empty
database, which stays empty. -/
theorem create_user_missing_fields_witness :
    create_user_api DB.empty ⟨none, some (r"a@x.com")⟩ =
      ⟨⟨400, some (Json.obj [((r"error"), Json.str (r"name and email required"))])⟩,
       DB.empty, false⟩ :=
  create_user_missing_fields DB.empty ⟨none, some (r"a@x.com")⟩ (Or.inl rfl)

/-- C4: no reachable database state holds two rows with the same email, and
POST /users with a valid name and an email some row already has fails with
the storage error 500 and adds no row. -/
theorem email_uniqueness_invariant :
    (∀ db, Reachable db → EmailsUnique db) ∧
    (∀ (db : DB) (body : ReqBody) (name email : String), body.name = some name →
      name ≠ (r"") → body.email = some email → email ≠ (r"") →
      db.emailExists email = true →
      create_user_api db body = ⟨⟨500, none⟩, db, true⟩) := by
  constructor
  · intro db h
    exact (reachable_WF h).2.2.2
  · intro db body name email hn hn0 he he0 hdup
    have hbn : isBlank body.name = false := by rw [hn]; exact isBlank_some_eq_false hn0
    have hbe : isBlank body.email = false := by rw [he]; exact isBlank_some_eq_false he0
    simp [create_user_api, hn, he, isBlank_some_eq_false hn0, isBlank_some_eq_false he0,
      hdup]

/-- C4 witness: after creating Alice the reachable state has unique emails,
and re-creating a user with Alice's email fails with 500 and changes
nothing. -/
theorem email_uniqueness_invariant_witness :
    EmailsUnique (applyOp DB.empty (Op.create ⟨some (r"Alice"), some (r"a@x.com")⟩)) ∧
    create_user_api (applyOp DB.empty (Op.create ⟨some (r"Alice"), some (r"a@x.com")⟩))
        ⟨some (r"Carol"), some (r"a@x.com")⟩ =
      ⟨⟨500, none⟩,
       applyOp DB.empty (Op.create ⟨some (r"Alice"), some (r"a@x.com")⟩), true⟩ :=
  ⟨email_uniqueness_invariant.1 _
     (Reachable.step (Op.create ⟨some (r"Alice"), some (r"a@x.com")⟩) Reachable.empty),
   email_uniqueness_invariant.2 _ _ (r"Carol") (r"a@x.com") rfl (by decide) rfl (by decide)
     (by decide)⟩

/-- C5 counterexample: in the reachable state holding Alice (id 1, a@x.com)
and Bob (id 2, b@x.com), PATCH /users/1 with the non-empty email b@x.com —
an existing id and a non-empty email — does not answer 200: the unique
constraint makes the commit fail, the handler answers 500 and the database
is unchanged. -/
theorem update_duplicate_email_cex :
    (update_user_api
        (applyOp (applyOp DB.empty (Op.create ⟨some (r"Alice"), some (r"a@x.com")⟩))
          (Op.create ⟨some (r"Bob"), some (r"b@x.com")⟩)) 1
        ⟨none, some (r"b@x.com")⟩).resp.status = 500 ∧
    ¬ ((update_user_api
        (applyOp (applyOp DB.empty (Op.create ⟨some (r"Alice"), some (r"a@x.com")⟩))
          (Op.create ⟨some (r"Bob"), some (r"b@x.com")⟩)) 1
        ⟨none, some (r"b@x.com")⟩).resp.status = 200) ∧
    (update_user_api
        (applyOp (applyOp DB.empty (Op.create ⟨some (r"Alice"), some (r"a@x.com")⟩))
          (Op.create ⟨some (r"Bob"), some (r"b@x.com")⟩)) 1
        ⟨none, some (r"b@x.com")⟩).db =
      applyOp (applyOp DB.empty (Op.create ⟨some (r"Alice"), some (r"a@x.com")⟩))
        (Op.create ⟨some (r"Bob"), some (r"b@x.com")⟩) := by
  decide

/-- C5 (amended): for every id matching an existing row and every non-empty
new email that no other row already has, PATCH /users/id answers 200 with
the serialized record carrying the new email, rewrites exactly that row in
place, and a subsequent GET /users reflects the change. -/
theorem update_user_valid (db : DB) (userId : Nat) (body : ReqBody) (email : String)
    (u : User)
    (hwf : db.WF) (he : body.email = some email) (he0 : email ≠ (r""))
    (hfind : db.rows.find? (fun v => v.id == userId) = some u)
    (hother : ∀ v ∈ db.rows, v.email = email → v.id = userId) :
    update_user_api db userId body =
      ⟨⟨200, some (User.to_dict { u with email := email })⟩,
       ⟨db.rows.map (fun v => if v.id == userId then { v with email := email } else v),
        db.nextId⟩, true⟩ ∧
    ({ u with email := email } : User) ∈ (update_user_api db userId body).db.rows ∧
    (list_users (update_user_api db userId body).db).resp.body =
      some (Json.arr ((update_user_api db userId body).db.rows.map User.to_dict)) := by
  have hbe : isBlank body.email = false := by rw [he]; exact isBlank_some_eq_false he0
  have humem : u ∈ db.rows := List.mem_of_find?_eq_some hfind
  have huid : u.id = userId := by simpa using List.find?_some hfind
  have hguard : (db.emailExists email && email != u.email) = false := by
    cases hex : db.emailExists email with
    | false => simp
    | true =>
      obtain ⟨v, hv, hveq⟩ : ∃ v ∈ db.rows, v.email = email := by
        simpa [DB.emailExists, List.any_eq_true] using hex
      have hvid : v.id = userId := hother v hv hveq
      have hvu : v = u := eq_of_mem_of_id_eq hwf.2.2.1 hv humem (hvid.trans huid.symm)
      have hemail : email = u.email := by rw [← hvu, hveq]
      simp [hemail]
  have heq : update_user_api db userId body =
      ⟨⟨200, some (User.to_dict { u with email := email })⟩,
       ⟨db.rows.map (fun v => if v.id == userId then { v with email := email } else v),
        db.nextId⟩, true⟩ := by
    simp [update_user_api, he, isBlank_some_eq_false he0, hfind, hguard]
  refine ⟨heq, ?_, rfl⟩
  rw [heq]
  have himg : ({ u with email := email } : User) =
      (if (u.id == userId) = true then { u with email := email } else u) := by
    simp [huid]
  rw [himg]
  exact List.mem_map_of_mem _ humem

/-- C5 witness (for the amended claim): updating Alice's email to a fresh
address answers 200 and the list reflects the change. -/
theorem update_user_valid_witness :
    update_user_api ⟨[⟨1, (r"Alice"), (r"a@x.com")⟩], 2⟩ 1 ⟨none, some (r"new@x.com")⟩ =
      ⟨⟨200, some (User.to_dict ⟨1, (r"Alice"), (r"new@x.com")⟩)⟩,
       ⟨[⟨1, (r"Alice"), (r"new@x.com")⟩], 2⟩, true⟩ ∧
    (⟨1, (r"Alice"), (r"new@x.com")⟩ : User) ∈
      (update_user_api ⟨[⟨1, (r"Alice"), (r"a@x.com")⟩], 2⟩ 1
        ⟨none, some (r"new@x.com")⟩).db.rows ∧
    (list_users (update_user_api ⟨[⟨1, (r"Alice"), (r"a@x.com")⟩], 2⟩ 1
        ⟨none, some (r"new@x.com")⟩).db).resp.body =
      some (Json.arr ((update_user_api ⟨[⟨1, (r"Alice"), (r"a@x.com")⟩], 2⟩ 1
        ⟨none, some (r"new@x.com")⟩).db.rows.map User.to_dict)) :=
  update_user_valid ⟨[⟨1, (r"Alice"), (r"a@x.com")⟩], 2⟩ 1 ⟨none, some (r"new@x.com")⟩
    (r"new@x.com") ⟨1, (r"Alice"), (r"a@x.com")⟩ (by decide) rfl (by decide) rfl (by decide)

/-- C6: PATCH /users/id with a non-empty email and no matching row answers 404
with the error body, and the database state after the request equals the
state before it. -/
theorem update_user_not_found (db : DB) (userId : Nat) (body : ReqBody) (email : String)
    (he : body.email = some email) (he0 : email ≠ (r""))
    (hfind : db.rows.find? (fun v => v.id == userId) = none) :
    update_user_api db userId body =
      ⟨⟨404, some (Json.obj [((r"error"), Json.str (r"not found"))])⟩, db, true⟩ := by
  have hbe : isBlank body.email = false := by rw [he]; exact isBlank_some_eq_false he0
  simp [update_user_api, hbe, hfind]

/-- C6 witness: updating id 1 in the empty database answers 404 and leaves it
empty. -/
theorem update_user_not_found_witness :
    update_user_api DB.empty 1 ⟨none, some (r"a@x.com")⟩ =
      ⟨⟨404, some (Json.obj [((r"error"), Json.str (r"not found"))])⟩, DB.empty, true⟩ :=
  update_user_not_found DB.empty 1 ⟨none, some (r"a@x.com")⟩ (r"a@x.com") rfl (by decide) rfl

/-- C7: DELETE /users/id on an existing id answers 204 with an empty body,
removes every row with that id and keeps every other row; a second DELETE of
the same id answers 404 and removes nothing. -/
theorem delete_user_found (db : DB) (userId : Nat) (u : User)
    (hfind : db.rows.find? (fun v => v.id == userId) = some u) :
    delete_user_api db userId =
      ⟨⟨204, none⟩, ⟨db.rows.filter (fun v => v.id != userId), db.nextId⟩, true⟩ ∧
    (∀ v ∈ (delete_user_api db userId).db.rows, v.id ≠ userId) ∧
    (∀ v ∈ db.rows, v.id ≠ userId → v ∈ (delete_user_api db userId).db.rows) ∧
    delete_user_api (delete_user_api db userId).db userId =
      ⟨⟨404, some (Json.obj [((r"error"), Json.str (r"not found"))])⟩,
       (delete_user_api db userId).db, true⟩ := by
  have heq : delete_user_api db userId =
      ⟨⟨204, none⟩, ⟨db.rows.filter (fun v => v.id != userId), db.nextId⟩, true⟩ := by
    simp [delete_user_api, hfind]
  have hgone : ∀ v ∈ (delete_user_api db userId).db.rows, v.id ≠ userId := by
    rw [heq]
    intro v hv
    exact bne_iff_ne.mp (List.mem_filter.mp hv).2
  refine ⟨heq, hgone, ?_, ?_⟩
  · rw [heq]
    intro v hv hne
    exact List.mem_filter.mpr ⟨hv, bne_iff_ne.mpr hne⟩
  · have hnone : (delete_user_api db userId).db.rows.find? (fun v => v.id == userId) =
        none := by
      refine List.find?_eq_none.mpr ?_
      intro v hv hc
      exact hgone v hv (beq_iff_eq.mp hc)
    rw [heq] at hnone ⊢
    simp [delete_user_api, hnone]

/-- C7 witness: deleting Alice answers 204 and empties the table; deleting
her again answers 404. -/
theorem delete_user_found_witness :
    delete_user_api ⟨[⟨1, (r"Alice"), (r"a@x.com")⟩], 2⟩ 1 =
      ⟨⟨204, none⟩, ⟨[], 2⟩, true⟩ ∧
    delete_user_api (delete_user_api ⟨[⟨1, (r"Alice"), (r"a@x.com")⟩], 2⟩ 1).db 1 =
      ⟨⟨404, some (Json.obj [((r"error"), Json.str (r"not found"))])⟩,
       (delete_user_api ⟨[⟨1, (r"Alice"), (r"a@x.com")⟩], 2⟩ 1).db, true⟩ :=
  ⟨(delete_user_found ⟨[⟨1, (r"Alice"), (r"a@x.com")⟩], 2⟩ 1
      ⟨1, (r"Alice"), (r"a@x.com")⟩ rfl).1,
   (delete_user_found ⟨[⟨1, (r"Alice"), (r"a@x.com")⟩], 2⟩ 1
      ⟨1, (r"Alice"), (r"a@x.com")⟩ rfl).2.2.2⟩

/-- C8: a scoped session has exactly two outcomes: when the body raises, the
persisted database is unchanged (rollback) and the exception is re-raised;
when the body completes normally, its state is committed and its value
returned. -/
theorem session_scope_two_outcomes {α : Type} (body : DB → Except String (DB × α))
    (db : DB) :
    (∀ e, body db = Except.error e → session_scope body db = (db, Except.error e)) ∧
    (∀ db2 a, body db = Except.ok (db2, a) → session_scope body db = (db2, Except.ok a)) := by
  constructor
  · intro e he
    unfold session_scope
    rw [he]
  · intro db2 a ha
    unfold session_scope
    rw [ha]

/-- C8 witness: a raising body leaves the empty database unchanged and
re-raises; a completing body commits its state and returns its value. -/
theorem session_scope_two_outcomes_witness :
    session_scope (fun _ => (Except.error (r"boom") : Except String (DB × Nat))) DB.empty =
      (DB.empty, Except.error (r"boom")) ∧
    session_scope (fun d => (Except.ok (d, 7) : Except String (DB × Nat))) DB.empty =
      (DB.empty, Except.ok 7) :=
  ⟨(session_scope_two_outcomes (fun _ => Except.error (r"boom")) DB.empty).1 (r"boom") rfl,
   (session_scope_two_outcomes (fun d => Except.ok (d, 7)) DB.empty).2 DB.empty 7 rfl⟩

/-- C9: startup exits when DATABASE_URL is absent or empty or when the
normalized connection string is malformed, and constructs the engine only
when a non-empty connection string is present. -/
theorem startup_requires_database_url :
    startup none = Startup.exited (r"DATABASE_URL is required") ∧
    startup (some (r"")) = Startup.exited (r"DATABASE_URL is required") ∧
    (∀ s url, normalizeDatabaseUrl (some s) = some url → validEngineUrl url = false →
      ∃ m, startup (some s) = Startup.exited m) ∧
    (∀ env url, startup env = Startup.engine url →
      ∃ s, env = some s ∧ s.isEmpty = false) := by
  refine ⟨rfl, by decide, ?_, ?_⟩
  · intro s url hn hv
    unfold startup
    rw [hn]
    by_cases hemp : url.isEmpty = true
    · exact ⟨(r"DATABASE_URL is required"), by simp [hemp]⟩
    · exact ⟨(r"could not parse DATABASE_URL"), by simp [hemp, hv]⟩
  · intro env url h
    cases env with
    | none => simp [startup, normalizeDatabaseUrl] at h
    | some s =>
      refine ⟨s, rfl, ?_⟩
      cases hs : s.isEmpty with
      | false => rfl
      | true =>
        exfalso
        rw [(String.isEmpty_iff s).mp hs] at h
        rw [show startup (some (r"")) = Startup.exited (r"DATABASE_URL is required")
          from by decide] at h
        exact Startup.noConfusion h

/-- C9 witness: a separator-free connection string makes startup exit, and a
mysql:// string yields an engine, forcing the environment value to be a
non-empty string. -/
theorem startup_requires_database_url_witness :
    (∃ m, startup (some (r"notaurl")) = Startup.exited m) ∧
    (∃ s, (some (r"mysql://u@h/d") : Option String) = some s ∧ s.isEmpty = false) :=
  ⟨startup_requires_database_url.2.2.1 (r"notaurl") (r"notaurl") rfl (by decide),
   startup_requires_database_url.2.2.2 (some (r"mysql://u@h/d"))
     (r"mysql+pymysql://u@h/d") (by decide)⟩

/-- C10: in PATCH /users/id the missing-email validation runs before the
existence lookup: a blank email always yields 400 — never 404 — with the
database unchanged and no session opened, whatever the target id. -/
theorem update_validation_precedes_lookup (db : DB) (userId : Nat) (body : ReqBody)
    (h : isBlank body.email = true) :
    update_user_api db userId body =
      ⟨⟨400, some (Json.obj [((r"error"), Json.str (r"email required"))])⟩, db, false⟩ ∧
    (update_user_api db userId body).resp.status ≠ 404 ∧
    (update_user_api db userId body).sessionOpened = false := by
  have heq : update_user_api db userId body =
      ⟨⟨400, some (Json.obj [((r"error"), Json.str (r"email required"))])⟩, db, false⟩ := by
    simp [update_user_api, h]
  refine ⟨heq, ?_, ?_⟩
  · rw [heq]
    simp
  · rw [heq]

/-- C10 witness: a body without an email on the empty database and an absent
id yields 400, not 404, and opens no session. -/
theorem update_validation_precedes_lookup_witness :
    update_user_api DB.empty 5 ⟨none, none⟩ =
      ⟨⟨400, some (Json.obj [((r"error"), Json.str (r"email required"))])⟩,
       DB.empty, false⟩ ∧
    (update_user_api DB.empty 5 ⟨none, none⟩).resp.status ≠ 404 ∧
    (update_user_api DB.empty 5 ⟨none, none⟩).sessionOpened = false :=
  update_validation_precedes_lookup DB.empty 5 ⟨none, none⟩ rfl

end PySqlDemo
